import Mathlib

/-!
Verification of the signal-synthesis logic of a multi-agent stock-analysis
pipeline.  The synthesis appears in three variants in the source:

* `src/models/simple_predictor.py` (`StockPredictor._calculate_weighted_signal`,
  `_signal_to_recommendation`, `_estimate_price_target`, `predict_from_reports`):
  effective weight `base * (0.5 + 0.5 * conf/100)`, recommendation thresholds
  `±0.3` (strict), overall confidence `sum(conf * base_weight)`.
* `src/agents/production_orchestrator.py` (`analyze_stock`, Phase 2;
  `src/agents/cloud_orchestrator.py` is identical): weights are the raw
  confidences, `avg_confidence` is the arithmetic mean of the confidences of
  the reports that carry the key, recommendation thresholds `±0.3` (strict),
  risk `MEDIUM/HIGH` for BUY/SELL and `LOW/MEDIUM` for HOLD.
* `src/agents/kaggle_orchestrator.py` (`analyze_stock`, Phase 2): weights are
  the raw confidences, recommendation thresholds `±0.15` (strict), three-tier
  risk using `|signal| > 0.35` and confidence bands at 70/60.

All numeric computation is modelled exactly over `ℚ`.
-/

namespace StockSynth

/-- A specialist agent's report, as the synthesis code reads it: optional
`directional_signal` and `confidence_score` entries (a missing dictionary key
is `none`), an optional `error` field, and the optional
`key_metrics["current_price"]` entry used by `_estimate_price_target`. -/
structure Report where
  directional_signal : Option ℚ
  confidence_score : Option ℚ
  error : Option String
  key_metrics_current_price : Option ℚ
deriving DecidableEq

/-- Final recommendation enum. -/
inductive Recommendation
  | BUY
  | HOLD
  | SELL
deriving DecidableEq

/-- Risk classification enum. -/
inductive RiskLevel
  | LOW
  | MEDIUM
  | HIGH
deriving DecidableEq

/-! ## `simple_predictor.py` : `StockPredictor` -/

/-- `fundamental_report.get("directional_signal", 0.0)` in
`predict_from_reports`: a missing signal defaults to `0`. -/
def getSignal (r : Report) : ℚ := r.directional_signal.getD 0

/-- `fundamental_report.get("confidence_score", 50.0)` in
`predict_from_reports`: a missing confidence defaults to `50`. -/
def getConf (r : Report) : ℚ := r.confidence_score.getD 50

/-- `weight = base_weights[key] * (0.5 + 0.5 * confidence_weight)` with
`confidence_weight = confidence / 100.0`, from `_calculate_weighted_signal`. -/
def effWeight (base conf : ℚ) : ℚ := base * (1/2 + 1/2 * (conf / 100))

/-- One iteration of the loop in `_calculate_weighted_signal`:
the accumulator is `(total_weight, weighted_sum, confidence_sum)` and each
entry is `(base_weight, signal, confidence)`. -/
def calcStep (acc : ℚ × ℚ × ℚ) (e : ℚ × ℚ × ℚ) : ℚ × ℚ × ℚ :=
  (acc.1 + effWeight e.1 e.2.2,
   acc.2.1 + e.2.1 * effWeight e.1 e.2.2,
   acc.2.2 + e.2.2 * e.1)

/-- The loop of `_calculate_weighted_signal`, starting from
`total_weight = weighted_sum = confidence_sum = 0.0`. -/
def calcAccum (l : List (ℚ × ℚ × ℚ)) : ℚ × ℚ × ℚ := l.foldl calcStep (0, 0, 0)

/-- `total_weight` after the loop of `_calculate_weighted_signal`. -/
def totalWeight (l : List (ℚ × ℚ × ℚ)) : ℚ := (calcAccum l).1

/-- `weighted_sum` after the loop of `_calculate_weighted_signal`. -/
def weightedSum (l : List (ℚ × ℚ × ℚ)) : ℚ := (calcAccum l).2.1

/-- `confidence_sum` after the loop of `_calculate_weighted_signal`. -/
def confidenceSum (l : List (ℚ × ℚ × ℚ)) : ℚ := (calcAccum l).2.2

/-- `weighted_signal = weighted_sum / total_weight if total_weight > 0 else 0.0`
from `_calculate_weighted_signal`. -/
def calcWeightedSignal (l : List (ℚ × ℚ × ℚ)) : ℚ :=
  if totalWeight l > 0 then weightedSum l / totalWeight l else 0

/-- `overall_confidence = confidence_sum` from `_calculate_weighted_signal`. -/
def overallConfidence (l : List (ℚ × ℚ × ℚ)) : ℚ := confidenceSum l

/-- The `signals` dictionary built by `predict_from_reports`, paired with the
hard-coded `base_weights` `{fundamental: 0.30, technical: 0.25,
sentiment: 0.20, macro: 0.15, regulatory: 0.10}` in iteration order.
Every report appears here; the `error` field plays no role. -/
def signalEntries (fundamentalR technicalR sentimentR macroR regulatoryR : Report) :
    List (ℚ × ℚ × ℚ) :=
  [(3/10, getSignal fundamentalR, getConf fundamentalR),
   (1/4, getSignal technicalR, getConf technicalR),
   (1/5, getSignal sentimentR, getConf sentimentR),
   (3/20, getSignal macroR, getConf macroR),
   (1/10, getSignal regulatoryR, getConf regulatoryR)]

/-- `_signal_to_recommendation`: BUY above `0.3`, SELL below `-0.3`,
otherwise HOLD (strict comparisons). -/
def signalToRecommendation (signal : ℚ) : Recommendation :=
  if signal > 3/10 then .BUY
  else if signal < -(3/10) then .SELL
  else .HOLD

/-! ## `production_orchestrator.py` (and `cloud_orchestrator.py`) Phase 2 -/

/-- `signals = [r.get("directional_signal", 0.0) for r in results.values()
if "directional_signal" in r]`: reports lacking the key are dropped; the
`error` field is not consulted. -/
def prodSignals (rs : List Report) : List ℚ :=
  (rs.filter fun r => r.directional_signal.isSome).map fun r => r.directional_signal.getD 0

/-- `confidences = [r.get("confidence_score", 0.0) for r in results.values()
if "confidence_score" in r]`. -/
def prodConfidences (rs : List Report) : List ℚ :=
  (rs.filter fun r => r.confidence_score.isSome).map fun r => r.confidence_score.getD 0

/-- `sum(s * c for s, c in zip(signals, confidences))`. -/
def dotSum (ps : List (ℚ × ℚ)) : ℚ := (ps.map fun p => p.1 * p.2).sum

/-- `weighted_signal` of the production/cloud orchestrators:
`sum(s*c)/sum(c)` when both lists are non-empty and the confidences sum to a
positive value, `0` when the sum is not positive, and the `0.0` fallback when
either list is empty. -/
def prodWeightedSignal (rs : List Report) : ℚ :=
  if prodSignals rs = [] ∨ prodConfidences rs = [] then 0
  else if (prodConfidences rs).sum > 0 then
    dotSum ((prodSignals rs).zip (prodConfidences rs)) / (prodConfidences rs).sum
  else 0

/-- `avg_confidence` of the production/cloud orchestrators:
`sum(confidences) / len(confidences)` when both lists are non-empty,
otherwise the `50.0` fallback. -/
def prodAvgConfidence (rs : List Report) : ℚ :=
  if prodSignals rs = [] ∨ prodConfidences rs = [] then 50
  else (prodConfidences rs).sum / (prodConfidences rs).length

/-- Recommendation mapping of the production/cloud orchestrators
(`weighted_signal > 0.3` → BUY, `< -0.3` → SELL, else HOLD). -/
def prodRecommendation (ws : ℚ) : Recommendation :=
  if ws > 3/10 then .BUY
  else if ws < -(3/10) then .SELL
  else .HOLD

/-- Risk mapping of the production/cloud orchestrators: BUY and SELL yield
`MEDIUM` when `avg_confidence > 70` and `HIGH` otherwise; HOLD yields `LOW`
when `avg_confidence > 70` and `MEDIUM` otherwise. -/
def prodRiskLevel (ws ac : ℚ) : RiskLevel :=
  if ws > 3/10 then (if ac > 70 then .MEDIUM else .HIGH)
  else if ws < -(3/10) then (if ac > 70 then .MEDIUM else .HIGH)
  else (if ac > 70 then .LOW else .MEDIUM)

/-- The reports contributing lines to the rationale: the loop at the end of
`analyze_stock` skips any report with an `error` key
(`if "error" not in result`). -/
def rationaleReports (rs : List Report) : List Report :=
  rs.filter fun r => r.error.isNone

/-- `"analysis_reports": results` — the returned per-agent report map is the
collected `results` mapping itself, error-flagged entries included. -/
def prodAnalysisReports (rs : List Report) : List Report := rs

/-! ## `kaggle_orchestrator.py` Phase 2 -/

/-- `signals = [r["directional_signal"] for r in results.values()]`: direct
indexing, so a missing key raises `KeyError`, modelled as `none`. -/
def kaggleSignals (rs : List Report) : Option (List ℚ) :=
  rs.mapM fun r => r.directional_signal

/-- `confidences = [r["confidence_score"] for r in results.values()]`,
again raising on a missing key. -/
def kaggleConfidences (rs : List Report) : Option (List ℚ) :=
  rs.mapM fun r => r.confidence_score

/-- Kaggle-orchestrator synthesis on the extracted lists: returns
`(weighted_signal, avg_confidence)`; when `total_conf` is not positive it
falls back to `(0.0, 50.0)`. -/
def kaggleSynth (signals confidences : List ℚ) : ℚ × ℚ :=
  if confidences.sum > 0 then
    (dotSum (signals.zip confidences) / confidences.sum,
     confidences.sum / confidences.length)
  else (0, 50)

/-- Kaggle-orchestrator recommendation: `weighted_signal > 0.15` → BUY,
`< -0.15` → SELL, else HOLD (strict comparisons). -/
def kaggleRecommendation (ws : ℚ) : Recommendation :=
  if ws > 15/100 then .BUY
  else if ws < -(15/100) then .SELL
  else .HOLD

/-- Kaggle-orchestrator risk: for BUY, `LOW` when `ws > 0.35 ∧ ac > 70`,
else `MEDIUM` when `ac > 60`, else `HIGH`; for SELL symmetrically with
`ws < -0.35`; for HOLD, `LOW` when `ac > 70` else `MEDIUM`. -/
def kaggleRiskLevel (ws ac : ℚ) : RiskLevel :=
  if ws > 15/100 then
    (if ws > 35/100 ∧ ac > 70 then .LOW else if ac > 60 then .MEDIUM else .HIGH)
  else if ws < -(15/100) then
    (if ws < -(35/100) ∧ ac > 70 then .LOW else if ac > 60 then .MEDIUM else .HIGH)
  else (if ac > 70 then .LOW else .MEDIUM)

/-! ## `_estimate_price_target` -/

/-- Python's `round` to an integer: round half to even. -/
def pyRound (x : ℚ) : ℤ :=
  if Int.fract x < 1/2 then ⌊x⌋
  else if 1/2 < Int.fract x then ⌊x⌋ + 1
  else if ⌊x⌋ % 2 = 0 then ⌊x⌋ else ⌊x⌋ + 1

/-- Python's `round(x, 2)`. -/
def round2 (x : ℚ) : ℚ := (pyRound (x * 100) : ℚ) / 100

/-- `_estimate_price_target`: take `current_price` from the fundamental
report's `key_metrics` when the key is present, else from the technical
report's; `if not current_price: return None` (so `None` also when the stored
price is `0`, which is falsy); otherwise
`round(current_price * (1 + weighted_signal * 0.20), 2)`. -/
def estimatePriceTarget (fundamentalR technicalR : Report) (ws : ℚ) : Option ℚ :=
  let current_price : Option ℚ :=
    match fundamentalR.key_metrics_current_price with
    | some p => some p
    | none => technicalR.key_metrics_current_price
  match current_price with
  | none => none
  | some p => if p = 0 then none else some (round2 (p * (1 + ws * (1/5))))

/-! ## Definitions modelled from the spec text, for comparison only -/

/-- A report with its `error` field removed; the synthesis code never reads
that field, which the theorems below make precise. -/
def clearError (r : Report) : Report :=
  { r with error := none }

/-- Modelled from the spec text (claim C1, for comparison): the
effective-weight average taken only over reports without an `error` field. -/
def specErrorFilteredSignal (fundamentalR technicalR sentimentR macroR regulatoryR : Report) : ℚ :=
  calcWeightedSignal
    ((([((3:ℚ)/10, fundamentalR), (1/4, technicalR), (1/5, sentimentR),
        (3/20, macroR), (1/10, regulatoryR)].filter
      fun e => e.2.error.isNone).map fun e => (e.1, getSignal e.2, getConf e.2)))

/-- Modelled from the spec text (claim C6, for comparison): the simple
arithmetic mean of the confidence entries. -/
def specMeanConfidence (l : List (ℚ × ℚ × ℚ)) : ℚ :=
  (l.map fun e => e.2.2).sum / l.length

/-- Clamp a directional signal to `[-1, 1]` (spec text, claim C7). -/
def clampSignal (x : ℚ) : ℚ := max (-1) (min 1 x)

/-- Clamp a confidence score to `[0, 100]` (spec text, claim C7). -/
def clampConf (c : ℚ) : ℚ := max 0 (min 100 c)

/-- Modelled from the spec text (claim C7, for comparison): the synthesis run
after clamping every signal and confidence to its declared domain. -/
def specClampedSignal (l : List (ℚ × ℚ × ℚ)) : ℚ :=
  calcWeightedSignal (l.map fun e => (e.1, clampSignal e.2.1, clampConf e.2.2))

/-! ## Closed forms for the `_calculate_weighted_signal` loop -/

/-- Closed form of the loop's `total_weight`: the sum of effective weights. -/
def totW (l : List (ℚ × ℚ × ℚ)) : ℚ := (l.map fun e => effWeight e.1 e.2.2).sum

/-- Closed form of the loop's `weighted_sum`. -/
def wSig (l : List (ℚ × ℚ × ℚ)) : ℚ := (l.map fun e => e.2.1 * effWeight e.1 e.2.2).sum

/-- Closed form of the loop's `confidence_sum`. -/
def cWSum (l : List (ℚ × ℚ × ℚ)) : ℚ := (l.map fun e => e.2.2 * e.1).sum

lemma foldl_calcStep (l : List (ℚ × ℚ × ℚ)) :
    ∀ acc : ℚ × ℚ × ℚ,
      l.foldl calcStep acc = (acc.1 + totW l, acc.2.1 + wSig l, acc.2.2 + cWSum l) := by
  induction l with
  | nil => intro acc; simp [totW, wSig, cWSum]
  | cons e t ih =>
      intro acc
      rw [List.foldl_cons, ih]
      simp only [calcStep, totW, wSig, cWSum, List.map_cons, List.sum_cons, Prod.mk.injEq]
      refine ⟨by ring, by ring, by ring⟩

lemma totalWeight_eq (l : List (ℚ × ℚ × ℚ)) : totalWeight l = totW l := by
  simp [totalWeight, calcAccum, foldl_calcStep]

lemma weightedSum_eq (l : List (ℚ × ℚ × ℚ)) : weightedSum l = wSig l := by
  simp [weightedSum, calcAccum, foldl_calcStep]

lemma confidenceSum_eq (l : List (ℚ × ℚ × ℚ)) : confidenceSum l = cWSum l := by
  simp [confidenceSum, calcAccum, foldl_calcStep]

/-- Concrete error report with aggressive numeric fields (used to exhibit that
`error` is not consulted by `_calculate_weighted_signal`). -/
def exErrF : Report := ⟨some 1, some 100, some "agent unavailable", none⟩

/-- Concrete neutral report: signal 0, confidence 0, no error. -/
def exZero : Report := ⟨some 0, some 0, none, none⟩

/-- Concrete error report of the shape the production orchestrator builds on
agent failure: `{"error": ..., "directional_signal": 0.0, "confidence_score": 0.0}`. -/
def exErrZ : Report := ⟨some 0, some 0, some "agent failed", none⟩

/-- Concrete clean report: signal 0, confidence 50. -/
def exClean : Report := ⟨some 0, some 50, none, none⟩

/-- Concrete clean report: signal 0, confidence 100. -/
def ex100 : Report := ⟨some 0, some 100, none, none⟩

/-! ## Claim theorems -/

/-- C1 counterexample: on a concrete input whose fundamental report carries an
`error` field together with signal 1 and confidence 100, beside four neutral
reports, `_calculate_weighted_signal` returns `6/13`, while the claimed
formula restricted to reports without an `error` field returns `0`: the code
does not exclude error reports from the weighted sum. -/
theorem C1_counterexample :
    calcWeightedSignal (signalEntries exErrF exZero exZero exZero exZero) = 6/13 ∧
    specErrorFilteredSignal exErrF exZero exZero exZero exZero = 0 ∧
    (6/13 : ℚ) ≠ 0 := by
  refine ⟨?_, ?_, by norm_num⟩
  · norm_num [calcWeightedSignal, totalWeight_eq, weightedSum_eq, totW, wSig, signalEntries,
      exErrF, exZero, getSignal, getConf, effWeight]
  · norm_num [specErrorFilteredSignal, calcWeightedSignal, totalWeight_eq, weightedSum_eq,
      totW, wSig, exErrF, exZero, getSignal, getConf, effWeight, List.filter]

/-- C1 (amended): whenever the accumulated total weight is positive,
`_calculate_weighted_signal` returns
`sum(signal · effective_weight) / sum(effective_weight)` with
`effective_weight = base_weight · (0.5 + 0.5 · confidence/100)`, but the sums
range over ALL five reports — the `error` field is never consulted by the
synthesis — and a report with confidence 0 still carries half its base
weight. -/
theorem C1_weighted_signal_formula
    (fundamentalR technicalR sentimentR macroR regulatoryR : Report)
    (h : 0 < totalWeight (signalEntries fundamentalR technicalR sentimentR macroR regulatoryR)) :
    calcWeightedSignal (signalEntries fundamentalR technicalR sentimentR macroR regulatoryR) =
      wSig (signalEntries fundamentalR technicalR sentimentR macroR regulatoryR) /
        totW (signalEntries fundamentalR technicalR sentimentR macroR regulatoryR) ∧
    signalEntries (clearError fundamentalR) (clearError technicalR) (clearError sentimentR)
        (clearError macroR) (clearError regulatoryR) =
      signalEntries fundamentalR technicalR sentimentR macroR regulatoryR ∧
    ∀ b : ℚ, effWeight b 0 = b / 2 := by
  refine ⟨?_, ?_, fun b => by unfold effWeight; ring⟩
  · unfold calcWeightedSignal
    rw [if_pos h, totalWeight_eq, weightedSum_eq]
  · simp [signalEntries, clearError, getSignal, getConf]

/-- C1 witness: the amended statement instantiated on the concrete input of
the counterexample. -/
theorem C1_witness :
    0 < totalWeight (signalEntries exErrF exZero exZero exZero exZero) ∧
    calcWeightedSignal (signalEntries exErrF exZero exZero exZero exZero) =
      wSig (signalEntries exErrF exZero exZero exZero exZero) /
        totW (signalEntries exErrF exZero exZero exZero exZero) := by
  have h : 0 < totalWeight (signalEntries exErrF exZero exZero exZero exZero) := by
    norm_num [totalWeight_eq, totW, signalEntries, exErrF, exZero, getConf, effWeight]
  exact ⟨h, (C1_weighted_signal_formula exErrF exZero exZero exZero exZero h).1⟩

/-- C2 counterexample: five failure reports of the exact shape the production
orchestrator builds (`error` present, signal 0, confidence 0) make the total
weight zero, yet `avg_confidence` is the arithmetic mean `0`, not the claimed
`50.0`. -/
theorem C2_counterexample :
    prodAvgConfidence [exErrZ, exErrZ, exErrZ, exErrZ, exErrZ] = 0 ∧ (0 : ℚ) ≠ 50 := by
  constructor
  · rw [prodAvgConfidence,
      if_neg (by simp [prodSignals, prodConfidences, exErrZ, List.filter])]
    norm_num [prodConfidences, exErrZ, List.filter]
  · norm_num

/-- C2 (amended): on an empty report mapping the production orchestrator
returns exactly `weighted_signal = 0`, `average_confidence = 50`,
recommendation HOLD and risk MEDIUM; the kaggle orchestrator returns the full
`(0, 50, HOLD, MEDIUM)` fallback whenever the summed confidence weight is
zero; the production orchestrator with reports present but zero total weight
still returns `weighted_signal = 0`, HOLD and MEDIUM, but its
`average_confidence` is the arithmetic mean of the stored confidences rather
than `50`.  All cases are total — no exception is possible. -/
theorem C2_zero_usable_fallback :
    (prodWeightedSignal [] = 0 ∧ prodAvgConfidence [] = 50 ∧
      prodRecommendation (prodWeightedSignal []) = .HOLD ∧
      prodRiskLevel (prodWeightedSignal []) (prodAvgConfidence []) = .MEDIUM) ∧
    (∀ signals confidences : List ℚ, confidences.sum = 0 →
      kaggleSynth signals confidences = (0, 50) ∧
      kaggleRecommendation 0 = .HOLD ∧ kaggleRiskLevel 0 50 = .MEDIUM) ∧
    (∀ rs : List Report, (prodConfidences rs).sum = 0 →
      prodWeightedSignal rs = 0 ∧
      prodRecommendation (prodWeightedSignal rs) = .HOLD ∧
      prodRiskLevel (prodWeightedSignal rs) (prodAvgConfidence rs) = .MEDIUM) := by
  refine ⟨?_, ?_, ?_⟩
  · have hempty : prodSignals [] = [] ∨ prodConfidences [] = [] := by
      simp [prodSignals]
    rw [prodWeightedSignal, if_pos hempty, prodAvgConfidence, if_pos hempty]
    refine ⟨rfl, rfl, by norm_num [prodRecommendation], by norm_num [prodRiskLevel]⟩
  · intro signals confidences h
    refine ⟨?_, by norm_num [kaggleRecommendation], by norm_num [kaggleRiskLevel]⟩
    rw [kaggleSynth, if_neg (by rw [h]; norm_num)]
  · intro rs h
    by_cases hempty : prodSignals rs = [] ∨ prodConfidences rs = []
    · rw [prodWeightedSignal, if_pos hempty, prodAvgConfidence, if_pos hempty]
      refine ⟨rfl, by norm_num [prodRecommendation], by norm_num [prodRiskLevel]⟩
    · rw [prodWeightedSignal, if_neg hempty, if_neg (by rw [h]; norm_num),
        prodAvgConfidence, if_neg hempty, h]
      refine ⟨rfl, by norm_num [prodRecommendation], ?_⟩
      rw [zero_div]
      norm_num [prodRiskLevel]

/-- C2 witness: the amended statement applied to the all-error input of the
counterexample. -/
theorem C2_witness :
    (prodConfidences [exErrZ]).sum = 0 ∧
    prodWeightedSignal [exErrZ] = 0 ∧
    prodRecommendation (prodWeightedSignal [exErrZ]) = .HOLD ∧
    prodRiskLevel (prodWeightedSignal [exErrZ]) (prodAvgConfidence [exErrZ]) = .MEDIUM := by
  have h : (prodConfidences [exErrZ]).sum = 0 := by
    norm_num [prodConfidences, exErrZ, List.filter]
  have := C2_zero_usable_fallback.2.2 [exErrZ] h
  exact ⟨h, this.1, this.2.1, this.2.2⟩

/-- C3 counterexample: appending an error-flagged report that still carries
signal 1 and confidence 100 to a single clean report changes the production
orchestrator's weighted signal from `0` to `2/3` and its average confidence
from `50` to `75`: an error report with numeric fields present influences
both aggregates. -/
theorem C3_counterexample :
    prodWeightedSignal [exClean, exErrF] = 2/3 ∧ prodWeightedSignal [exClean] = 0 ∧
    prodAvgConfidence [exClean, exErrF] = 75 ∧ prodAvgConfidence [exClean] = 50 ∧
    (2/3 : ℚ) ≠ 0 ∧ (75 : ℚ) ≠ 50 := by
  refine ⟨?_, ?_, ?_, ?_, by norm_num, by norm_num⟩
  · rw [prodWeightedSignal,
      if_neg (by simp [prodSignals, prodConfidences, exClean, exErrF, List.filter]),
      if_pos (by norm_num [prodConfidences, exClean, exErrF, List.filter])]
    norm_num [prodSignals, prodConfidences, dotSum, exClean, exErrF, List.filter]
  · rw [prodWeightedSignal,
      if_neg (by simp [prodSignals, prodConfidences, exClean, List.filter]),
      if_pos (by norm_num [prodConfidences, exClean, List.filter])]
    norm_num [prodSignals, prodConfidences, dotSum, exClean, List.filter]
  · rw [prodAvgConfidence,
      if_neg (by simp [prodSignals, prodConfidences, exClean, exErrF, List.filter])]
    norm_num [prodConfidences, exClean, exErrF, List.filter]
  · rw [prodAvgConfidence,
      if_neg (by simp [prodSignals, prodConfidences, exClean, List.filter])]
    norm_num [prodConfidences, exClean, List.filter]

lemma prodSignals_clearError (rs : List Report) :
    prodSignals (rs.map clearError) = prodSignals rs := by
  induction rs with
  | nil => rfl
  | cons r t ih =>
      simp only [prodSignals, List.map_cons, List.filter_cons] at ih ⊢
      by_cases h : r.directional_signal.isSome
      · simp only [clearError, h, if_pos]
        simpa [clearError] using congrArg (List.cons (r.directional_signal.getD 0)) ih
      · simp only [clearError] at h ⊢
        rw [if_neg (by simpa using h), if_neg (by simpa using h)]
        exact ih

lemma prodConfidences_clearError (rs : List Report) :
    prodConfidences (rs.map clearError) = prodConfidences rs := by
  induction rs with
  | nil => rfl
  | cons r t ih =>
      simp only [prodConfidences, List.map_cons, List.filter_cons] at ih ⊢
      by_cases h : r.confidence_score.isSome
      · simp only [clearError, h, if_pos]
        simpa [clearError] using congrArg (List.cons (r.confidence_score.getD 0)) ih
      · simp only [clearError] at h ⊢
        rw [if_neg (by simpa using h), if_neg (by simpa using h)]
        exact ih

/-- C3 (amended): the production orchestrator's synthesis never consults the
`error` field — removing it from every report leaves `weighted_signal` and
`avg_confidence` unchanged, so an error report carrying numeric fields
contributes exactly like a clean one; only the rationale lines filter error
reports out; and the returned `analysis_reports` map is the collected report
map itself, error entries included unchanged. -/
theorem C3_error_reports_in_synthesis :
    (∀ rs : List Report,
      prodWeightedSignal (rs.map clearError) = prodWeightedSignal rs ∧
      prodAvgConfidence (rs.map clearError) = prodAvgConfidence rs) ∧
    (∀ (rs : List Report) (r : Report),
      r ∈ rationaleReports rs ↔ r ∈ rs ∧ r.error = none) ∧
    (∀ rs : List Report, prodAnalysisReports rs = rs) := by
  refine ⟨fun rs => ?_, fun rs r => ?_, fun rs => rfl⟩
  · rw [prodWeightedSignal, prodWeightedSignal, prodAvgConfidence, prodAvgConfidence,
      prodSignals_clearError, prodConfidences_clearError]
    exact ⟨rfl, rfl⟩
  · simp [rationaleReports, List.mem_filter, Option.isNone_iff_eq_none]

/-- C4 counterexample: the kaggle orchestrator classifies a weighted signal of
exactly `0.30` as BUY (its strict threshold is `0.15`), contradicting the
claim that `0.30` always yields HOLD. -/
theorem C4_counterexample :
    kaggleRecommendation (3/10) = .BUY ∧ Recommendation.BUY ≠ .HOLD := by
  constructor
  · rw [kaggleRecommendation, if_pos (by norm_num)]
  · simp

/-- C4 (amended): the production orchestrator and `_signal_to_recommendation`
use the strict symmetric `0.3` threshold (BUY exactly above `0.3`, SELL
exactly below `-0.3`, HOLD on `[-0.3, 0.3]`, so `0.30` itself yields HOLD),
and they agree; the kaggle orchestrator instead uses the strict symmetric
`0.15` threshold. -/
theorem C4_recommendation_thresholds :
    (∀ x : ℚ,
      (prodRecommendation x = .BUY ↔ 3/10 < x) ∧
      (prodRecommendation x = .SELL ↔ x < -(3/10)) ∧
      (prodRecommendation x = .HOLD ↔ -(3/10) ≤ x ∧ x ≤ 3/10) ∧
      signalToRecommendation x = prodRecommendation x ∧
      (kaggleRecommendation x = .BUY ↔ 15/100 < x) ∧
      (kaggleRecommendation x = .SELL ↔ x < -(15/100)) ∧
      (kaggleRecommendation x = .HOLD ↔ -(15/100) ≤ x ∧ x ≤ 15/100)) ∧
    prodRecommendation (3/10) = .HOLD ∧ signalToRecommendation (3/10) = .HOLD := by
  refine ⟨fun x => ?_, ?_, ?_⟩
  · unfold prodRecommendation signalToRecommendation kaggleRecommendation
    split_ifs with h1 h2 h3 h4 <;>
      refine ⟨?_, ?_, ?_, rfl, ?_, ?_, ?_⟩ <;> simp_all <;> linarith
  · rw [prodRecommendation, if_neg (by norm_num), if_neg (by norm_num)]
  · rw [signalToRecommendation, if_neg (by norm_num), if_neg (by norm_num)]

/-- Concrete strong-buy report: signal 1/2, confidence 90. -/
def exBuy : Report := ⟨some (1/2), some 90, none, none⟩

/-- C5 counterexample: a single production-orchestrator report with signal
`0.5` and confidence `90` yields recommendation BUY with
`|weighted_signal| > 0.35` and `average_confidence > 70`, yet the production
orchestrator assigns risk MEDIUM where the claimed rule requires LOW. -/
theorem C5_counterexample :
    prodRecommendation (prodWeightedSignal [exBuy]) = .BUY ∧
    |prodWeightedSignal [exBuy]| > 35/100 ∧ prodAvgConfidence [exBuy] > 70 ∧
    prodRiskLevel (prodWeightedSignal [exBuy]) (prodAvgConfidence [exBuy]) = .MEDIUM ∧
    RiskLevel.MEDIUM ≠ .LOW := by
  have hws : prodWeightedSignal [exBuy] = 1/2 := by
    rw [prodWeightedSignal,
      if_neg (by simp [prodSignals, prodConfidences, exBuy, List.filter]),
      if_pos (by norm_num [prodConfidences, exBuy, List.filter])]
    norm_num [prodSignals, prodConfidences, dotSum, exBuy, List.filter]
  have hac : prodAvgConfidence [exBuy] = 90 := by
    rw [prodAvgConfidence,
      if_neg (by simp [prodSignals, prodConfidences, exBuy, List.filter])]
    norm_num [prodConfidences, exBuy, List.filter]
  rw [hws, hac]
  refine ⟨?_, by rw [abs_of_pos (by norm_num : (0:ℚ) < 1/2)]; norm_num, by norm_num, ?_,
    by simp⟩
  · rw [prodRecommendation, if_pos (by norm_num)]
  · rw [prodRiskLevel, if_pos (by norm_num), if_pos (by norm_num)]

/-- C5 (amended): the claimed risk rule is exactly the kaggle orchestrator's:
for BUY/SELL, LOW iff `|weighted_signal| > 0.35` and `avg_confidence > 70`,
else MEDIUM iff `avg_confidence > 60`, else HIGH; for HOLD, LOW iff
`avg_confidence > 70`, else MEDIUM.  The production orchestrator instead
assigns, for BUY/SELL, MEDIUM iff `avg_confidence > 70` and HIGH otherwise
(LOW is unreachable), and for HOLD the same LOW/MEDIUM rule. -/
theorem C5_risk_rules (ws ac : ℚ) :
    kaggleRiskLevel ws ac =
      (if kaggleRecommendation ws = .HOLD then
        (if ac > 70 then .LOW else .MEDIUM)
       else if |ws| > 35/100 ∧ ac > 70 then .LOW
       else if ac > 60 then .MEDIUM else .HIGH) ∧
    prodRiskLevel ws ac =
      (if prodRecommendation ws = .HOLD then (if ac > 70 then .LOW else .MEDIUM)
       else if ac > 70 then .MEDIUM else .HIGH) := by
  constructor
  · by_cases h1 : ws > 15/100
    · have habs : |ws| = ws := abs_of_pos (by linarith)
      rw [kaggleRiskLevel, if_pos h1, kaggleRecommendation, if_pos h1,
        if_neg (show ¬(Recommendation.BUY = Recommendation.HOLD) by simp), habs]
    · by_cases h2 : ws < -(15/100)
      · have habs : |ws| = -ws := abs_of_neg (by linarith)
        rw [kaggleRiskLevel, if_neg h1, if_pos h2, kaggleRecommendation, if_neg h1,
          if_pos h2,
          if_neg (show ¬(Recommendation.SELL = Recommendation.HOLD) by simp), habs]
        have hiff : (ws < -(35/100) ∧ ac > 70) ↔ (-ws > 35/100 ∧ ac > 70) := by
          constructor <;> exact fun h => ⟨by linarith [h.1], h.2⟩
        by_cases h3 : ws < -(35/100) ∧ ac > 70
        · rw [if_pos h3, if_pos (hiff.mp h3)]
        · rw [if_neg h3, if_neg (fun hc => h3 (hiff.mpr hc))]
      · rw [kaggleRiskLevel, if_neg h1, if_neg h2, kaggleRecommendation, if_neg h1,
          if_neg h2, if_pos rfl]
  · by_cases h1 : ws > 3/10
    · rw [prodRiskLevel, if_pos h1, prodRecommendation, if_pos h1,
        if_neg (show ¬(Recommendation.BUY = Recommendation.HOLD) by simp)]
    · by_cases h2 : ws < -(3/10)
      · rw [prodRiskLevel, if_neg h1, if_pos h2, prodRecommendation, if_neg h1,
          if_pos h2, if_neg (show ¬(Recommendation.SELL = Recommendation.HOLD) by simp)]
      · rw [prodRiskLevel, if_neg h1, if_neg h2, prodRecommendation, if_neg h1,
          if_neg h2, if_pos rfl]

/-- C6 counterexample: with confidences `(100, 0, 0, 0, 0)` the arithmetic
mean is `20`, but `_calculate_weighted_signal` reports
`overall_confidence = sum(confidence · base_weight) = 30`: the source
confidence aggregate is base-weight-weighted, not a simple mean. -/
theorem C6_counterexample :
    overallConfidence (signalEntries ex100 exZero exZero exZero exZero) = 30 ∧
    specMeanConfidence (signalEntries ex100 exZero exZero exZero exZero) = 20 ∧
    (30 : ℚ) ≠ 20 := by
  refine ⟨?_, ?_, by norm_num⟩
  · norm_num [overallConfidence, confidenceSum_eq, cWSum, signalEntries,
      ex100, exZero, getSignal, getConf]
  · norm_num [specMeanConfidence, signalEntries, ex100, exZero, getSignal, getConf]

/-- C6 (amended): `_calculate_weighted_signal` returns
`overall_confidence = sum(confidence · base_weight)` — weighted by the base
weights, not a mean; the production orchestrator does return the simple
arithmetic mean, but over every report that carries a `confidence_score` key,
with error-flagged reports included (removing the `error` fields changes
nothing). -/
theorem C6_confidence_aggregation
    (l : List (ℚ × ℚ × ℚ)) (rs : List Report)
    (h : ¬(prodSignals rs = [] ∨ prodConfidences rs = [])) :
    overallConfidence l = cWSum l ∧
    prodAvgConfidence rs = (prodConfidences rs).sum / (prodConfidences rs).length ∧
    prodConfidences (rs.map clearError) = prodConfidences rs := by
  exact ⟨confidenceSum_eq l, by rw [prodAvgConfidence, if_neg h],
    prodConfidences_clearError rs⟩

/-- C6 witness: the amended statement at the counterexample inputs. -/
theorem C6_witness :
    ¬(prodSignals [exClean, exErrF] = [] ∨ prodConfidences [exClean, exErrF] = []) ∧
    overallConfidence (signalEntries ex100 exZero exZero exZero exZero) =
      cWSum (signalEntries ex100 exZero exZero exZero exZero) ∧
    prodAvgConfidence [exClean, exErrF] =
      (prodConfidences [exClean, exErrF]).sum / (prodConfidences [exClean, exErrF]).length := by
  have h : ¬(prodSignals [exClean, exErrF] = [] ∨ prodConfidences [exClean, exErrF] = []) := by
    simp [prodSignals, prodConfidences, exClean, exErrF, List.filter]
  have := C6_confidence_aggregation (signalEntries ex100 exZero exZero exZero exZero)
    [exClean, exErrF] h
  exact ⟨h, this.1, this.2.1⟩

/-- Concrete out-of-range report: signal 5 (outside `[-1,1]`), confidence 100. -/
def exSig5 : Report := ⟨some 5, some 100, none, none⟩

/-- C7 counterexample: with a directional signal of `5` and all confidences at
`100`, `_calculate_weighted_signal` returns `3/2` — the raw out-of-range value
flowed straight into the weighted sum (the result even escapes `[-1, 1]`) —
while the claimed clamp-before-use policy would return `3/10`. -/
theorem C7_counterexample :
    calcWeightedSignal (signalEntries exSig5 ex100 ex100 ex100 ex100) = 3/2 ∧
    specClampedSignal (signalEntries exSig5 ex100 ex100 ex100 ex100) = 3/10 ∧
    (3/2 : ℚ) ≠ 3/10 := by
  refine ⟨?_, ?_, by norm_num⟩
  · norm_num [calcWeightedSignal, totalWeight_eq, weightedSum_eq, totW, wSig, signalEntries,
      exSig5, ex100, getSignal, getConf, effWeight]
  · norm_num [specClampedSignal, calcWeightedSignal, totalWeight_eq, weightedSum_eq,
      totW, wSig, signalEntries, exSig5, ex100, getSignal, getConf, effWeight,
      clampSignal, clampConf]

/-- C7 (amended): no clamping happens anywhere in the synthesis — the raw
directional signal flows through linearly (with all confidences at 100 the
output is `0.3 · v` for ANY `v`, unbounded), and no report is ever rejected:
the entry list always keeps all five reports. -/
theorem C7_values_used_unclamped :
    (∀ v : ℚ, calcWeightedSignal
        (signalEntries ⟨some v, some 100, none, none⟩ ex100 ex100 ex100 ex100) = 3/10 * v) ∧
    (∀ f t s m rg : Report, (signalEntries f t s m rg).length = 5) := by
  constructor
  · intro v
    have htot : totalWeight
        (signalEntries ⟨some v, some 100, none, none⟩ ex100 ex100 ex100 ex100) = 1 := by
      norm_num [totalWeight_eq, totW, signalEntries, ex100, getSignal, getConf, effWeight]
    rw [calcWeightedSignal, if_pos (by rw [htot]; norm_num), htot, weightedSum_eq]
    norm_num [wSig, signalEntries, ex100, getSignal, getConf, effWeight]
    ring
  · intro f t s m rg
    simp [signalEntries]

/-- Concrete report with a missing `confidence_score` key. -/
def exMissC : Report := ⟨some 1, none, none, none⟩

/-- Concrete report with signal 1 and explicit confidence 0. -/
def exConf0 : Report := ⟨some 1, some 0, none, none⟩

/-- C8 counterexample: `predict_from_reports` treats a missing
`confidence_score` as `50.0`, not the claimed `0.0`: with the confidence key
removed the weighted signal is `9/23`, while an explicit confidence of `0`
gives `3/10` — the two differ, so the missing field is not read as zero. -/
theorem C8_counterexample :
    calcWeightedSignal (signalEntries exMissC exZero exZero exZero exZero) = 9/23 ∧
    calcWeightedSignal (signalEntries exConf0 exZero exZero exZero exZero) = 3/10 ∧
    (9/23 : ℚ) ≠ 3/10 := by
  refine ⟨?_, ?_, by norm_num⟩
  · norm_num [calcWeightedSignal, totalWeight_eq, weightedSum_eq, totW, wSig, signalEntries,
      exMissC, exZero, getSignal, getConf, effWeight]
  · norm_num [calcWeightedSignal, totalWeight_eq, weightedSum_eq, totW, wSig, signalEntries,
      exConf0, exZero, getSignal, getConf, effWeight]

/-- C8 (amended): `predict_from_reports` never raises on a missing field: a
missing `directional_signal` is read as `0.0` but a missing
`confidence_score` is read as `50.0` (not `0.0`); the kaggle orchestrator
raises `KeyError` (modelled as `none`) as soon as any report lacks either
field; the production orchestrator silently drops the report from the
corresponding list instead. -/
theorem C8_missing_field_defaults :
    (∀ (f t s m rg : Report),
      signalEntries { f with confidence_score := none } t s m rg =
        signalEntries { f with confidence_score := some 50 } t s m rg ∧
      signalEntries { f with directional_signal := none } t s m rg =
        signalEntries { f with directional_signal := some 0 } t s m rg) ∧
    (∀ (rs : List Report) (c k : Option ℚ) (e : Option String),
      kaggleSignals (⟨none, c, e, k⟩ :: rs) = none ∧
      kaggleConfidences (⟨c, none, e, k⟩ :: rs) = none ∧
      prodSignals (⟨none, c, e, k⟩ :: rs) = prodSignals rs ∧
      prodConfidences (⟨c, none, e, k⟩ :: rs) = prodConfidences rs) := by
  constructor
  · intro f t s m rg
    constructor
    · simp [signalEntries, getSignal, getConf]
    · simp [signalEntries, getSignal, getConf]
  · intro rs c k e
    refine ⟨?_, ?_, ?_, ?_⟩
    · simp [kaggleSignals, List.mapM, List.mapM.loop]
    · simp [kaggleConfidences, List.mapM, List.mapM.loop]
    · simp [prodSignals, List.filter_cons]
    · simp [prodConfidences, List.filter_cons]

lemma totW_append (l1 l2 : List (ℚ × ℚ × ℚ)) : totW (l1 ++ l2) = totW l1 + totW l2 := by
  simp [totW]

lemma wSig_append (l1 l2 : List (ℚ × ℚ × ℚ)) : wSig (l1 ++ l2) = wSig l1 + wSig l2 := by
  simp [wSig]

lemma totW_cons (b s c : ℚ) (l : List (ℚ × ℚ × ℚ)) :
    totW ((b, s, c) :: l) = effWeight b c + totW l := by
  simp [totW]

lemma wSig_cons (b s c : ℚ) (l : List (ℚ × ℚ × ℚ)) :
    wSig ((b, s, c) :: l) = s * effWeight b c + wSig l := by
  simp [wSig]

/-- Key weighted-average fact: with a fixed rest of total weight `B > 0` and
signal mass `A`, growing the weight `w` of an entry with signal `s` either
keeps the average at `s` (when it already equals `s`) or pulls it strictly
closer to `s`. -/
lemma wavg_toward (A B s w w' : ℚ) (hB : 0 < B) (hw : 0 ≤ w) (hww : w < w') :
    ((A + s * w) / (B + w) = s → (A + s * w') / (B + w') = s) ∧
    ((A + s * w) / (B + w) ≠ s →
      |(A + s * w') / (B + w') - s| < |(A + s * w) / (B + w) - s|) := by
  have hBw : 0 < B + w := by linarith
  have hBw' : 0 < B + w' := by linarith
  constructor
  · intro h
    have hA : A = s * B := by
      rw [div_eq_iff (ne_of_gt hBw)] at h
      nlinarith [h]
    rw [hA, show s * B + s * w' = s * (B + w') by ring,
      mul_div_assoc, div_self (ne_of_gt hBw'), mul_one]
  · intro h
    have hA : A - s * B ≠ 0 := by
      intro hc
      apply h
      have hA2 : A = s * B := by linarith
      rw [hA2, show s * B + s * w = s * (B + w) by ring,
        mul_div_assoc, div_self (ne_of_gt hBw), mul_one]
    have e1 : (A + s * w) / (B + w) - s = (A - s * B) / (B + w) := by
      field_simp
      ring
    have e2 : (A + s * w') / (B + w') - s = (A - s * B) / (B + w') := by
      field_simp
      ring
    rw [e1, e2, abs_div, abs_div, abs_of_pos hBw, abs_of_pos hBw']
    exact div_lt_div_of_pos_left (abs_pos.mpr hA) hBw (by linarith)

/-- C9 (confirmed): in `_calculate_weighted_signal`, raising the confidence of
one entry (base weight positive, confidence nonnegative) while everything
else stays fixed — the rest carrying positive total weight, as the five
positively-base-weighted reports always do — either leaves the weighted
signal unchanged when it already equals that entry's own directional signal,
or moves it strictly closer to that signal. -/
theorem C9_confidence_monotonicity
    (pre post : List (ℚ × ℚ × ℚ)) (b s c c' : ℚ)
    (hb : 0 < b) (hc : 0 ≤ c) (hcc : c < c')
    (hB : 0 < totalWeight (pre ++ post)) :
    (calcWeightedSignal (pre ++ (b, s, c) :: post) = s →
      calcWeightedSignal (pre ++ (b, s, c') :: post) = s) ∧
    (calcWeightedSignal (pre ++ (b, s, c) :: post) ≠ s →
      |calcWeightedSignal (pre ++ (b, s, c') :: post) - s| <
        |calcWeightedSignal (pre ++ (b, s, c) :: post) - s|) := by
  have hBpos : 0 < totW pre + totW post := by
    rw [totalWeight_eq, totW_append] at hB
    linarith
  have hw : 0 ≤ effWeight b c := by
    unfold effWeight
    nlinarith
  have hww : effWeight b c < effWeight b c' := by
    unfold effWeight
    nlinarith
  have eval : ∀ x : ℚ, 0 ≤ effWeight b x →
      calcWeightedSignal (pre ++ (b, s, x) :: post) =
        ((wSig pre + wSig post) + s * effWeight b x) /
          ((totW pre + totW post) + effWeight b x) := by
    intro x hx
    unfold calcWeightedSignal
    rw [totalWeight_eq, weightedSum_eq, totW_append, totW_cons, wSig_append, wSig_cons,
      if_pos (by linarith)]
    ring
  rw [eval c hw, eval c' (le_of_lt (lt_of_le_of_lt hw hww))]
  exact wavg_toward (wSig pre + wSig post) (totW pre + totW post) s
    (effWeight b c) (effWeight b c') hBpos hw hww

/-- C9 witness: the theorem applied to one fixed report (base 1/4, signal 1,
confidence 100) plus one varying report (base 3/10, signal 0) whose confidence
grows from 0 to 100. -/
theorem C9_witness :
    (0 : ℚ) < 3/10 ∧ (0 : ℚ) ≤ 0 ∧ (0 : ℚ) < 100 ∧
    0 < totalWeight ([((1 : ℚ)/4, (1 : ℚ), (100 : ℚ))] ++ []) ∧
    ((calcWeightedSignal ([((1 : ℚ)/4, 1, 100)] ++ ((3 : ℚ)/10, (0 : ℚ), (0 : ℚ)) :: []) = 0 →
        calcWeightedSignal ([((1 : ℚ)/4, 1, 100)] ++ ((3 : ℚ)/10, (0 : ℚ), (100 : ℚ)) :: []) = 0) ∧
      (calcWeightedSignal ([((1 : ℚ)/4, 1, 100)] ++ ((3 : ℚ)/10, (0 : ℚ), (0 : ℚ)) :: []) ≠ 0 →
        |calcWeightedSignal ([((1 : ℚ)/4, 1, 100)] ++ ((3 : ℚ)/10, (0 : ℚ), (100 : ℚ)) :: []) - 0| <
          |calcWeightedSignal ([((1 : ℚ)/4, 1, 100)] ++ ((3 : ℚ)/10, (0 : ℚ), (0 : ℚ)) :: []) - 0|)) := by
  have htot : 0 < totalWeight ([((1 : ℚ)/4, (1 : ℚ), (100 : ℚ))] ++ []) := by
    norm_num [totalWeight_eq, totW, effWeight]
  exact ⟨by norm_num, le_refl 0, by norm_num, htot,
    C9_confidence_monotonicity [((1 : ℚ)/4, 1, 100)] [] (3/10) 0 0 100
      (by norm_num) (le_refl 0) (by norm_num) htot⟩

lemma pyRound_err (x : ℚ) : |(pyRound x : ℚ) - x| ≤ 1/2 := by
  have h0 : (0 : ℚ) ≤ Int.fract x := Int.fract_nonneg x
  have h1 : Int.fract x < 1 := Int.fract_lt_one x
  have hfl : ((⌊x⌋ : ℤ) : ℚ) = x - Int.fract x := (Int.self_sub_fract x).symm
  unfold pyRound
  split_ifs with ha hb hc
  · rw [hfl, show x - Int.fract x - x = -(Int.fract x) by ring, abs_neg,
      abs_of_nonneg h0]
    linarith
  · push_cast
    rw [hfl, show x - Int.fract x + 1 - x = 1 - Int.fract x by ring,
      abs_of_nonneg (by linarith)]
    linarith
  · rw [hfl, show x - Int.fract x - x = -(Int.fract x) by ring, abs_neg,
      abs_of_nonneg h0]
    linarith
  · push_cast
    rw [hfl, show x - Int.fract x + 1 - x = 1 - Int.fract x by ring,
      abs_of_nonneg (by linarith)]
    linarith

lemma round2_err (x : ℚ) : |round2 x - x| ≤ 1/200 := by
  have h := pyRound_err (x * 100)
  rw [round2,
    show (pyRound (x * 100) : ℚ) / 100 - x = ((pyRound (x * 100) : ℚ) - x * 100) / 100 by
      ring,
    abs_div, abs_of_pos (show (0 : ℚ) < 100 by norm_num)]
  linarith

/-- Concrete fundamental report whose `key_metrics` store `current_price = 0`. -/
def exKM0 : Report := ⟨none, none, none, some 0⟩

/-- Concrete technical report with `current_price = 150`. -/
def exKM150 : Report := ⟨none, none, none, some 150⟩

/-- Concrete fundamental report with `current_price = 1.03`. -/
def exKMp : Report := ⟨none, none, none, some (103/100)⟩

/-- Concrete report with no `key_metrics` price. -/
def exNoKM : Report := ⟨none, none, none, none⟩

/-- C10 counterexample: (i) with `current_price = 0` stored in the fundamental
report, the code returns `None` (Python falsiness) although the claimed
formula would give `round(0 · (1 + 0.2·ws), 2) = 0`, and the technical
report's price `150` is not consulted; (ii) at `current_price = 1.03` and
`weighted_signal = 1`, the rounded target `1.24` deviates from the price by
`0.21 > 20% · 1.03 = 0.206`, so the claimed 20% bound fails after rounding. -/
theorem C10_counterexample :
    estimatePriceTarget exKM0 exKM150 (1/2) = none ∧
    (none : Option ℚ) ≠ some 0 ∧
    estimatePriceTarget exKMp exNoKM 1 = some (31/25) ∧
    |(31 : ℚ)/25 - 103/100| > (1/5) * (103/100) := by
  refine ⟨?_, by simp, ?_, ?_⟩
  · simp [estimatePriceTarget, exKM0, exKM150]
  · have hfloor : ⌊(103 : ℚ)/100 * (1 + 1 * (1/5)) * 100⌋ = 123 := by
      rw [show (103 : ℚ)/100 * (1 + 1 * (1/5)) * 100 = 618/5 by norm_num]
      rw [Int.floor_eq_iff]
      constructor <;> norm_num
    have hfract : Int.fract ((103 : ℚ)/100 * (1 + 1 * (1/5)) * 100) = 3/5 := by
      rw [← Int.self_sub_floor ((103 : ℚ)/100 * (1 + 1 * (1/5)) * 100), hfloor]
      norm_num
    simp only [estimatePriceTarget, exKMp, exNoKM]
    rw [if_neg (by norm_num), round2, pyRound, hfract, hfloor,
      if_neg (by norm_num), if_pos (by norm_num)]
    norm_num
  · rw [show (31 : ℚ)/25 - 103/100 = 21/100 by norm_num,
      abs_of_pos (show (0 : ℚ) < 21/100 by norm_num)]
    norm_num

/-- C10 (amended): `_estimate_price_target` returns
`round(current_price·(1 + 0.2·weighted_signal), 2)` with `current_price`
taken from the fundamental report's `key_metrics` when present and nonzero,
else from the technical report's when present and nonzero with the
fundamental key absent; it returns `None` when neither report carries the key
— and also when the carried price is `0`, which Python treats as falsy; and
for a positive price `p` and `|weighted_signal| ≤ 1`, the rounded target
deviates from `p` by at most `20%` of `p` plus half a cent. -/
theorem C10_price_target (f t : Report) (p ws : ℚ) :
    (f.key_metrics_current_price = some p → p ≠ 0 →
      estimatePriceTarget f t ws = some (round2 (p * (1 + ws * (1/5))))) ∧
    (f.key_metrics_current_price = none → t.key_metrics_current_price = some p → p ≠ 0 →
      estimatePriceTarget f t ws = some (round2 (p * (1 + ws * (1/5))))) ∧
    (f.key_metrics_current_price = none → t.key_metrics_current_price = none →
      estimatePriceTarget f t ws = none) ∧
    (f.key_metrics_current_price = some 0 → estimatePriceTarget f t ws = none) ∧
    (0 < p → |ws| ≤ 1 →
      |round2 (p * (1 + ws * (1/5))) - p| ≤ p * (1/5) + 1/200) := by
  refine ⟨?_, ?_, ?_, ?_, ?_⟩
  · intro hf hp
    simp [estimatePriceTarget, hf, hp]
  · intro hf ht hp
    simp [estimatePriceTarget, hf, ht, hp]
  · intro hf ht
    simp [estimatePriceTarget, hf, ht]
  · intro hf
    simp [estimatePriceTarget, hf]
  · intro hp hws
    have h1 := round2_err (p * (1 + ws * (1/5)))
    have h2 : |p * (1 + ws * (1/5)) - p| ≤ p * (1/5) := by
      rw [show p * (1 + ws * (1/5)) - p = p * ws * (1/5) by ring, abs_mul, abs_mul,
        abs_of_pos hp, abs_of_pos (show (0 : ℚ) < 1/5 by norm_num)]
      nlinarith [abs_nonneg ws]
    calc |round2 (p * (1 + ws * (1/5))) - p|
        ≤ |round2 (p * (1 + ws * (1/5))) - p * (1 + ws * (1/5))| +
            |p * (1 + ws * (1/5)) - p| := abs_sub_le _ _ _
      _ ≤ 1/200 + p * (1/5) := add_le_add h1 h2
      _ = p * (1/5) + 1/200 := by ring

/-- C10 witness: the amended statement applied at `current_price = 1.03`,
`weighted_signal = 1`. -/
theorem C10_witness :
    exKMp.key_metrics_current_price = some (103/100) ∧ ((103 : ℚ)/100) ≠ 0 ∧
    (0 : ℚ) < 103/100 ∧ |(1 : ℚ)| ≤ 1 ∧
    estimatePriceTarget exKMp exNoKM 1 = some (round2 ((103/100) * (1 + 1 * (1/5)))) ∧
    |round2 ((103/100) * (1 + 1 * (1/5))) - 103/100| ≤ (103/100) * (1/5) + 1/200 := by
  have h := C10_price_target exKMp exNoKM (103/100) 1
  exact ⟨rfl, by norm_num, by norm_num, by rw [abs_one],
    h.1 rfl (by norm_num), h.2.2.2.2 (by norm_num) (by rw [abs_one])⟩

end StockSynth

